import Mathlib

/-!
Shallow embedding of the micro:bit peripheral model (hw/arm/microbit.c):
the LED-matrix decoder, the NRF51 GPIO controller and the NRF51 timer.
Machine integers are modelled as `Nat` with explicit `% U32` truncation
where the C code assigns a wider value into a `uint32_t`.
-/

namespace Microbit

/-- `2^32`, the modulus of a `uint32_t`. -/
def U32 : Nat := 4294967296

/-- Bitwise complement of a 32-bit quantity (`~x` on `uint32_t`). -/
def compl32 (x : Nat) : Nat := x ^^^ 0xFFFFFFFF

/-! ## LED matrix -/

def MICROBIT_LED_MAP_MASK : Nat := 0x01FFFFFF

structure MICROBITLedMatrixState where
  led_state : Nat
  led_event : Nat
deriving DecidableEq

def MICROBIT_LED_EVENT_FRONT : Nat := 1

def MICROBIT_LED_EVENT_BACK : Nat := 2

/-- The fixed 27-entry (row, col) → (x, y) translation table; indexed by
`row + col * 3`.  Entries 22 and 25 are the `(5,5)` sentinels. -/
def matrix_map : List (Nat × Nat) :=
  [(0,0),(4,2),(2,4),
   (2,0),(0,2),(4,4),
   (4,0),(2,2),(0,4),
   (4,3),(1,0),(0,1),
   (3,3),(3,0),(1,1),
   (2,3),(3,4),(2,1),
   (1,3),(1,4),(3,1),
   (0,3),(5,5),(4,1),
   (1,2),(5,5),(3,2)]

/-- `microbit_led_matrix_write`: decode a multiplexed row/column word into
the 25-bit frame.  An invalid one-hot row aborts the write (state returned
unchanged, matching the early `return`). -/
def microbit_led_matrix_write (s : MICROBITLedMatrixState) (val : Nat) :
    MICROBITLedMatrixState :=
  let row_bits := (val >>> 13) &&& 7
  let col_bits := ((val >>> 4) &&& 0x1FF) ^^^ 0x1FF
  if row_bits = 1 ∨ row_bits = 2 ∨ row_bits = 4 then
    let clear_bits := if row_bits = 1 then 0x000f8815
                      else if row_bits = 2 then 0x00a0540a
                      else 0x015023e0
    let row := if row_bits = 1 then 0 else if row_bits = 2 then 1 else 2
    let led_bits := (List.range 9).foldl (fun acc col =>
      if row = 1 ∧ (col = 8 ∨ col = 9) then acc
      else if col_bits.testBit col then
        let p := matrix_map.getD (row + col * 3) (0, 0)
        acc ||| (1 <<< (p.1 + p.2 * 5))
      else acc) 0
    { led_state := ((s.led_state &&& compl32 clear_bits) ||| led_bits) &&&
        MICROBIT_LED_MAP_MASK,
      led_event := MICROBIT_LED_EVENT_BACK ||| MICROBIT_LED_EVENT_FRONT }
  else
    s

/-- `microbit_led_matrix_read`: returns the frame and marks both redraw
events pending. -/
def microbit_led_matrix_read (s : MICROBITLedMatrixState) :
    MICROBITLedMatrixState × Nat :=
  ({ s with led_event := MICROBIT_LED_EVENT_BACK ||| MICROBIT_LED_EVENT_FRONT },
   s.led_state)

/-- State after `microbit_led_matrix_reset`. -/
def ledInit : MICROBITLedMatrixState :=
  { led_state := 0,
    led_event := MICROBIT_LED_EVENT_BACK ||| MICROBIT_LED_EVENT_FRONT }

/-! ## NRF51 GPIO -/

def NRF51_GPIO_OUT : Nat := 0x504
def NRF51_GPIO_OUTSET : Nat := 0x508
def NRF51_GPIO_OUTCLR : Nat := 0x50C
def NRF51_GPIO_IN : Nat := 0x510
def NRF51_GPIO_DIR : Nat := 0x514
def NRF51_GPIO_DIRSET : Nat := 0x518
def NRF51_GPIO_DIRCLR : Nat := 0x51C

def PIN_CNF_DIR_IN : Nat := 0
def PIN_CNF_DIR_OUT : Nat := 1

structure NRF51GPIOPin where
  dir : Nat
  input : Nat
  pull : Nat
  drive : Nat
  sense : Nat
deriving DecidableEq

structure NRF51GPIOState where
  pin : Fin 32 → NRF51GPIOPin
  out : Nat
  /-- the source field is named `in` (a Lean keyword) -/
  inReg : Nat
  dir : Nat

/-- `nrf51_gpio_pin_cnf_write`: unpack a PIN_CNF word into the pin record. -/
def nrf51_gpio_pin_cnf_write (cnf : Nat) : NRF51GPIOPin :=
  { dir := (cnf >>> 0) &&& 1,
    input := (cnf >>> 1) &&& 1,
    pull := (cnf >>> 2) &&& 3,
    drive := (cnf >>> 8) &&& 7,
    sense := (cnf >>> 16) &&& 3 }

/-- `nrf51_gpio_pin_cnf_read`: pack the pin record back into a word. -/
def nrf51_gpio_pin_cnf_read (p : NRF51GPIOPin) : Nat :=
  (p.dir <<< 0) ||| (p.input <<< 1) ||| (p.pull <<< 2) |||
    (p.drive <<< 8) ||| (p.sense <<< 16)

/-- `nrf51_gpio_pin_dir_update`: resynchronize every per-pin direction field
from the aggregated `dir` mask.  NOTE: the source assigns `PIN_CNF_DIR_IN`
when the mask bit is SET and `PIN_CNF_DIR_OUT` when it is clear. -/
def nrf51_gpio_pin_dir_update (s : NRF51GPIOState) : NRF51GPIOState :=
  { s with pin := fun i =>
      if s.dir.testBit i.val then { s.pin i with dir := PIN_CNF_DIR_IN }
      else { s.pin i with dir := PIN_CNF_DIR_OUT } }

/-- `nrf51_gpio_write_out`: forward `out & 0x0000FFF0` (when non-zero) as a
physical store to the LED bus at 0x40020000 (`stw_phys`; the value fits in
16 bits), then clear the latch.  The second component collects the
(address, value) stores issued. -/
def nrf51_gpio_write_out (s : NRF51GPIOState) :
    NRF51GPIOState × List (Nat × Nat) :=
  ({ s with out := 0 },
   if s.out &&& 0x0000FFF0 ≠ 0 then [(0x40020000, s.out &&& 0x0000FFF0)]
   else [])

/-- `nrf51_gpio_read` (side-effect free in the source: `nrf51_gpio_read_in`
is a TODO no-op). -/
def nrf51_gpio_read (s : NRF51GPIOState) (offset : Nat) : Nat :=
  if offset = NRF51_GPIO_OUT ∨ offset = NRF51_GPIO_OUTSET ∨
      offset = NRF51_GPIO_OUTCLR then
    s.out
  else if offset = NRF51_GPIO_IN then
    s.inReg
  else if offset = NRF51_GPIO_DIR ∨ offset = NRF51_GPIO_DIRSET ∨
      offset = NRF51_GPIO_DIRCLR then
    s.dir
  else if 0x700 ≤ offset ∧ offset ≤ 0x77C ∧ offset % 4 = 0 then
    nrf51_gpio_pin_cnf_read
      (s.pin ⟨(offset >>> 2) &&& 0x1F, Nat.lt_of_le_of_lt Nat.and_le_right (by decide)⟩)
  else
    0

/-- `nrf51_gpio_write`: returns the new state and the list of physical
stores issued to the LED bus. -/
def nrf51_gpio_write (s : NRF51GPIOState) (offset value : Nat) :
    NRF51GPIOState × List (Nat × Nat) :=
  if offset = NRF51_GPIO_OUT then
    nrf51_gpio_write_out { s with out := value &&& s.dir }
  else if offset = NRF51_GPIO_OUTSET then
    nrf51_gpio_write_out { s with out := s.out ||| (value &&& s.dir) }
  else if offset = NRF51_GPIO_OUTCLR then
    nrf51_gpio_write_out { s with out := s.out &&& (compl32 (value % U32) &&& s.dir) }
  else if offset = NRF51_GPIO_DIR then
    (nrf51_gpio_pin_dir_update { s with dir := value % U32 }, [])
  else if offset = NRF51_GPIO_DIRSET then
    (nrf51_gpio_pin_dir_update { s with dir := (s.dir ||| value) % U32 }, [])
  else if offset = NRF51_GPIO_DIRCLR then
    (nrf51_gpio_pin_dir_update { s with dir := s.dir &&& compl32 (value % U32) }, [])
  else if 0x700 ≤ offset ∧ offset ≤ 0x77C ∧ offset % 4 = 0 then
    let index : Fin 32 :=
      ⟨(offset >>> 2) &&& 0x1F, Nat.lt_of_le_of_lt Nat.and_le_right (by decide)⟩
    ({ s with dir := (s.dir ||| ((value &&& 1) <<< index.val)) % U32,
              pin := Function.update s.pin index (nrf51_gpio_pin_cnf_write value) },
     [])
  else
    (s, [])

/-- Zero-initialized GPIO state (the device properties default all fields
to 0). -/
def gpioInit : NRF51GPIOState :=
  { pin := fun _ => { dir := 0, input := 0, pull := 0, drive := 0, sense := 0 },
    out := 0, inReg := 0, dir := 0 }

/-! ## NRF51 Timer -/

def NRF51_TIMER_BASE_FREQ : Nat := 0x01000000

def NRF51_TIMER_START : Nat := 0x000
def NRF51_TIMER_STOP : Nat := 0x004
def NRF51_TIMER_COUNT : Nat := 0x008
def NRF51_TIMER_CLEAR : Nat := 0x00C
def NRF51_TIMER_SHUTDOWN : Nat := 0x010
def NRF51_TIMER_CAPTURE0 : Nat := 0x040
def NRF51_TIMER_COMPARE0 : Nat := 0x140
def NRF51_TIMER_SHORTS : Nat := 0x200
def NRF51_TIMER_INTENSET : Nat := 0x304
def NRF51_TIMER_INTENCLR : Nat := 0x308
def NRF51_TIMER_MODE : Nat := 0x504
def NRF51_TIMER_BITMODE : Nat := 0x508
def NRF51_TIMER_PRESCALER : Nat := 0x510
def NRF51_TIMER_CC0 : Nat := 0x540

/-- The underlying tick source (`ptimer`): the model keeps its programmed
frequency, reload limit and running flag. -/
structure Ptimer where
  freq : Nat
  limit : Nat
  running : Bool
deriving DecidableEq

structure NRF51TimerState where
  timer : Ptimer
  pulsed : Bool
  inten : Nat
  limit_mask : Nat
  freq : Nat
  start : Nat
  stop : Nat
  count : Nat
  clear : Nat
  shutdown : Nat
  capture : Fin 4 → Nat
  compare : Fin 4 → Nat
  shorts : Nat
  intenset : Nat
  intenclr : Nat
  mode : Nat
  bitmode : Nat
  prescaler : Nat
  cc : Fin 4 → Nat
  internal_counter : Nat

/-- `nrf51_timer_recalibrate`: program the tick source reload limit from
`count` in counter mode, or 0 (free running) in timer mode. -/
def nrf51_timer_recalibrate (s : NRF51TimerState) : NRF51TimerState :=
  { s with timer :=
      { s.timer with limit := if s.mode &&& 1 ≠ 0 then s.count else 0 } }

/-- `nrf51_timer_read`: reads are side-effect free. -/
def nrf51_timer_read (s : NRF51TimerState) (offset : Nat) : Nat :=
  if offset = NRF51_TIMER_START then s.start
  else if offset = NRF51_TIMER_STOP then s.stop
  else if offset = NRF51_TIMER_COUNT then s.count
  else if offset = NRF51_TIMER_CLEAR then s.clear
  else if offset = NRF51_TIMER_SHUTDOWN then s.shutdown
  else if 0x040 ≤ offset ∧ offset ≤ 0x04C ∧ offset % 4 = 0 then
    s.capture ⟨(offset >>> 2) &&& 3, Nat.lt_of_le_of_lt Nat.and_le_right (by decide)⟩
  else if 0x140 ≤ offset ∧ offset ≤ 0x14C ∧ offset % 4 = 0 then
    s.compare ⟨(offset >>> 2) &&& 3, Nat.lt_of_le_of_lt Nat.and_le_right (by decide)⟩
  else if offset = NRF51_TIMER_SHORTS then s.shorts
  else if offset = NRF51_TIMER_INTENSET ∨ offset = NRF51_TIMER_INTENCLR then 0
  else if offset = NRF51_TIMER_MODE then s.mode
  else if offset = NRF51_TIMER_BITMODE then s.bitmode
  else if offset = NRF51_TIMER_PRESCALER then s.prescaler
  else if 0x540 ≤ offset ∧ offset ≤ 0x54C ∧ offset % 4 = 0 then
    s.cc ⟨(offset >>> 2) &&& 3, Nat.lt_of_le_of_lt Nat.and_le_right (by decide)⟩
  else 0

/-- `nrf51_timer_write`.  NOTE: a CAPTURE[i] write copies `internal_counter`
into `cc[i]` (not `capture[i]`), exactly as the source does.  The START
branch programs the tick-source frequency from `s.freq`, which the source
never derives from the prescaler. -/
def nrf51_timer_write (s : NRF51TimerState) (offset value : Nat) :
    NRF51TimerState :=
  if offset = NRF51_TIMER_START then
    if value &&& 1 ≠ 0 then
      let s1 := { s with
        timer := { s.timer with freq := s.freq },
        limit_mask :=
          if s.bitmode = 0 then 0xffff
          else if s.bitmode = 1 then 0xff
          else if s.bitmode = 2 then 0xffffff
          else if s.bitmode = 3 then 0xffffffff
          else s.limit_mask }
      -- the source's `g_assert_not_reached` default is unreachable:
      -- `bitmode` is only ever assigned `value & 3`
      let s2 := if s1.pulsed then { s1 with pulsed := false }
                else nrf51_timer_recalibrate s1
      { s2 with timer := { s2.timer with running := true } }
    else s
  else if offset = NRF51_TIMER_STOP then
    if value &&& 1 ≠ 0 then
      { s with timer := { s.timer with running := false }, pulsed := true }
    else s
  else if offset = NRF51_TIMER_COUNT then
    if s.mode &&& 1 ≠ 0 then
      nrf51_timer_recalibrate { s with count := value % U32 }
    else s
  else if offset = NRF51_TIMER_CLEAR then
    if value &&& 1 ≠ 0 then
      nrf51_timer_recalibrate { s with internal_counter := 0 }
    else s
  else if offset = NRF51_TIMER_SHUTDOWN then
    if value &&& 1 ≠ 0 then
      { nrf51_timer_recalibrate
          { s with timer := { s.timer with running := false },
                   internal_counter := 0 } with pulsed := false }
    else s
  else if 0x040 ≤ offset ∧ offset ≤ 0x04C ∧ offset % 4 = 0 then
    let i : Fin 4 :=
      ⟨(offset >>> 2) &&& 3, Nat.lt_of_le_of_lt Nat.and_le_right (by decide)⟩
    { s with cc := Function.update s.cc i s.internal_counter }
  else if 0x140 ≤ offset ∧ offset ≤ 0x14C ∧ offset % 4 = 0 then
    let i : Fin 4 :=
      ⟨(offset >>> 2) &&& 3, Nat.lt_of_le_of_lt Nat.and_le_right (by decide)⟩
    { s with compare := Function.update s.compare i (value % U32) }
  else if offset = NRF51_TIMER_SHORTS then s
  else if offset = NRF51_TIMER_INTENSET then
    { s with inten := s.inten ||| ((value >>> 16) &&& 0xf) }
  else if offset = NRF51_TIMER_INTENCLR then
    { s with inten := s.inten &&& (((value >>> 16) &&& 0xf) ^^^ 0xf) }
  else if offset = NRF51_TIMER_MODE then
    nrf51_timer_recalibrate { s with mode := value &&& 1 }
  else if offset = NRF51_TIMER_BITMODE then
    { s with bitmode := value &&& 3 }
  else if offset = NRF51_TIMER_PRESCALER then
    nrf51_timer_recalibrate { s with prescaler := value &&& 0xf }
  else if 0x540 ≤ offset ∧ offset ≤ 0x54C ∧ offset % 4 = 0 then
    let i : Fin 4 :=
      ⟨(offset >>> 2) &&& 3, Nat.lt_of_le_of_lt Nat.and_le_right (by decide)⟩
    { s with cc := Function.update s.cc i (value % U32) }
  else s

/-- One IRQ line action issued during a tick. -/
inductive IrqEvent where
  | pulse
  | lower
deriving DecidableEq

/-- Result of one tick: the new state, the IRQ action taken by the
counter-mode branch (if any), and the IRQ action taken for each compare
channel by the timer-mode loop (`none` when the `inten` bit is clear). -/
structure TickResult where
  state : NRF51TimerState
  counterIrq : Option IrqEvent
  channelIrq : Fin 4 → Option IrqEvent

/-- `nrf51_timer_tick`: advance and mask the internal counter, then fire
the counter-mode or timer-mode comparison logic. -/
def nrf51_timer_tick (s : NRF51TimerState) : TickResult :=
  let ic := (s.internal_counter + 1) &&& s.limit_mask
  if s.mode = 1 then
    if ic = s.count then
      { state := { s with internal_counter := 0 },
        counterIrq := some IrqEvent.pulse,
        channelIrq := fun _ => none }
    else
      { state := { s with internal_counter := ic },
        counterIrq := some IrqEvent.lower,
        channelIrq := fun _ => none }
  else
    { state := { s with
                 internal_counter := ic,
                 compare := fun i =>
                   if s.inten.testBit i.val ∧ s.cc i = ic then
                     (s.compare i + 1) % U32
                   else s.compare i },
      counterIrq := none,
      channelIrq := fun i =>
        if s.inten.testBit i.val then
          some (if s.cc i = ic then IrqEvent.pulse else IrqEvent.lower)
        else none }

/-- Timer state after `nrf51_timer_realize`: QOM zero-initializes the
instance, then realize sets `freq := NRF51_TIMER_BASE_FREQ`. -/
def timerInit : NRF51TimerState :=
  { timer := { freq := 0, limit := 0, running := false },
    pulsed := false, inten := 0, limit_mask := 0,
    freq := NRF51_TIMER_BASE_FREQ,
    start := 0, stop := 0, count := 0, clear := 0, shutdown := 0,
    capture := fun _ => 0, compare := fun _ => 0,
    shorts := 0, intenset := 0, intenclr := 0,
    mode := 0, bitmode := 0, prescaler := 0,
    cc := fun _ => 0, internal_counter := 0 }

/-! ## Concrete states and values used by individual claims -/

/-- Timer-mode state with channel 0 enabled and `cc[0]` one tick away. -/
def c3_state : NRF51TimerState :=
  { timerInit with inten := 1, limit_mask := 0xffff, cc := fun _ => 1 }

/-- GPIO state with all 32 pins configured as outputs (`DIR = 0xFFFFFFFF`). -/
def c4_state : NRF51GPIOState :=
  (nrf51_gpio_write gpioInit NRF51_GPIO_DIR 0xFFFFFFFF).1

/-- The S4 multiplex word `(1 << 13) | (~((1 << 4) | (1 << 5)) & 0x1FF0)`:
row 0 selected, columns 0 and 1 active (value 0x3FC0). -/
def c5_val : Nat :=
  (1 <<< 13) ||| ((compl32 ((1 <<< 4) ||| (1 <<< 5))) &&& 0x1FF0)

/-- Timer state whose internal counter holds the snapshot value 7. -/
def c7_state : NRF51TimerState :=
  { timerInit with internal_counter := 7 }

/-! ## Shared bitwise helper lemmas -/

theorem land_lor_distrib_right (a b c : Nat) :
    (a ||| b) &&& c = (a &&& c) ||| (b &&& c) := by
  apply Nat.eq_of_testBit_eq
  intro i
  simp [Nat.testBit_land, Nat.testBit_lor, Bool.and_or_distrib_right]

/-! ## Claim theorems -/

/-- C1: the claim says that after a `DIR`/`DIRSET`/`DIRCLR` write, each
`pin[p].dir` equals bit p of the `dir` mask (bit set ⇒ output = 1).  The
code does the opposite: writing `DIR = 1` sets bit 0 of `dir` yet leaves
`pin[0].dir = PIN_CNF_DIR_IN = 0`, contradicting the
`PIN_CNF` write path of the same file, which ORs the pin's direction bit
into `dir` with matching polarity.  This theorem evaluates the model at
that failing input. -/
theorem C1_dir_update_inverted :
    (nrf51_gpio_write gpioInit NRF51_GPIO_DIR 1).1.dir = 1 ∧
    Nat.testBit (nrf51_gpio_write gpioInit NRF51_GPIO_DIR 1).1.dir 0 = true ∧
    ((nrf51_gpio_write gpioInit NRF51_GPIO_DIR 1).1.pin 0).dir = PIN_CNF_DIR_IN ∧
    PIN_CNF_DIR_IN ≠ PIN_CNF_DIR_OUT := by
  decide

/-- C2: the claim says a START write with bit 0 set programs the tick
source to `base_freq / 2^prescaler`.  The code programs `s->freq`, which is
only ever assigned the constant `NRF51_TIMER_BASE_FREQ` at realize and is
never derived from the prescaler: with `prescaler = 1` the programmed
frequency stays `0x01000000` instead of `0x01000000 / 2`, contradicting
the comment in the source's own state declaration. -/
theorem C2_start_freq_ignores_prescaler :
    (nrf51_timer_write (nrf51_timer_write timerInit NRF51_TIMER_PRESCALER 1)
        NRF51_TIMER_START 1).prescaler = 1 ∧
    (nrf51_timer_write (nrf51_timer_write timerInit NRF51_TIMER_PRESCALER 1)
        NRF51_TIMER_START 1).timer.freq = NRF51_TIMER_BASE_FREQ ∧
    (nrf51_timer_write (nrf51_timer_write timerInit NRF51_TIMER_PRESCALER 1)
        NRF51_TIMER_START 1).timer.freq ≠ NRF51_TIMER_BASE_FREQ / 2 ^ 1 := by
  decide

/-- C3: on every tick the internal counter is incremented and masked by
`limit_mask`; in counter mode a match against `count` resets the counter
to 0 with one IRQ pulse (otherwise the IRQ is lowered); in timer mode each
channel with its `inten` bit set increments `compare[i]` and gets one IRQ
pulse exactly when `cc[i]` equals the updated counter (otherwise its IRQ
is lowered and `compare[i]` is unchanged), the increment being strict
whenever it does not wrap the 32-bit register. -/
theorem C3_tick_spec (s : NRF51TimerState) :
    (s.mode = 1 →
      ((s.internal_counter + 1) &&& s.limit_mask = s.count →
        (nrf51_timer_tick s).state.internal_counter = 0 ∧
        (nrf51_timer_tick s).counterIrq = some IrqEvent.pulse) ∧
      ((s.internal_counter + 1) &&& s.limit_mask ≠ s.count →
        (nrf51_timer_tick s).state.internal_counter =
          (s.internal_counter + 1) &&& s.limit_mask ∧
        (nrf51_timer_tick s).counterIrq = some IrqEvent.lower)) ∧
    (s.mode ≠ 1 →
      (nrf51_timer_tick s).state.internal_counter =
        (s.internal_counter + 1) &&& s.limit_mask ∧
      ∀ i : Fin 4,
        (s.inten.testBit i.val = true →
          (s.cc i = (s.internal_counter + 1) &&& s.limit_mask →
            (nrf51_timer_tick s).state.compare i = (s.compare i + 1) % U32 ∧
            (s.compare i + 1 < U32 →
              s.compare i < (nrf51_timer_tick s).state.compare i) ∧
            (nrf51_timer_tick s).channelIrq i = some IrqEvent.pulse) ∧
          (s.cc i ≠ (s.internal_counter + 1) &&& s.limit_mask →
            (nrf51_timer_tick s).state.compare i = s.compare i ∧
            (nrf51_timer_tick s).channelIrq i = some IrqEvent.lower)) ∧
        (s.inten.testBit i.val = false →
          (nrf51_timer_tick s).state.compare i = s.compare i ∧
          (nrf51_timer_tick s).channelIrq i = none)) := by
  constructor
  · intro hm
    constructor
    · intro he
      simp [nrf51_timer_tick, hm, he]
    · intro he
      simp [nrf51_timer_tick, hm, he]
  · intro hm
    constructor
    · simp [nrf51_timer_tick, hm]
    · intro i
      refine ⟨fun hen => ⟨fun hcc => ?_, fun hcc => ?_⟩, fun hen => ?_⟩
      · refine ⟨?_, ?_, ?_⟩
        · simp [nrf51_timer_tick, hm, hen, hcc]
        · intro hlt
          have hc : (nrf51_timer_tick s).state.compare i = (s.compare i + 1) % U32 := by
            simp [nrf51_timer_tick, hm, hen, hcc]
          rw [hc, Nat.mod_eq_of_lt hlt]
          omega
        · simp [nrf51_timer_tick, hm, hen, hcc]
      · constructor
        · simp [nrf51_timer_tick, hm, hen, hcc]
        · simp [nrf51_timer_tick, hm, hen, hcc]
      · constructor
        · simp [nrf51_timer_tick, hm, hen]
        · simp [nrf51_timer_tick, hm, hen]

/-- C3 witness: in `c3_state` (timer mode, channel 0 enabled, `cc[0]` one
tick ahead of the counter) one tick increments `compare[0]` and pulses the
channel-0 IRQ. -/
theorem C3_tick_spec_witness :
    (nrf51_timer_tick c3_state).state.compare 0 = (c3_state.compare 0 + 1) % U32 ∧
    (nrf51_timer_tick c3_state).channelIrq 0 = some IrqEvent.pulse := by
  have h := ((C3_tick_spec c3_state).2 (by decide)).2 0
  have h1 := (h.1 (by decide)).1 (by decide)
  exact ⟨h1.1, h1.2.2⟩

/-- C4 counterexample: with `DIR = 0xFFFFFFFF`, writing 0x00002000 to `OUT`
issues a store of 0x00002000 to the LED bus at 0x40020000, not a store of
0x00000000 as the claim says (the latch masked by 0x0000FFF0 is 0x2000). -/
theorem C4_counterexample :
    (nrf51_gpio_write c4_state NRF51_GPIO_OUT 0x2000).2 =
      [(0x40020000, 0x2000)] ∧
    (0x2000 : Nat) ≠ 0 := by
  decide

/-- C4 (amended): an `OUT` write of v forwards exactly
`(v & dir) & 0x0000FFF0` as a single store to 0x40020000 whenever that
value is non-zero, after which the latch is cleared and `OUT` reads back
0.  (The concrete instance of the claim: forwarding 0x00002000, not
0x00000000.) -/
theorem C4_out_forwarding (s : NRF51GPIOState) (v : Nat)
    (h : (v &&& s.dir) &&& 0x0000FFF0 ≠ 0) :
    (nrf51_gpio_write s NRF51_GPIO_OUT v).2 =
      [(0x40020000, (v &&& s.dir) &&& 0x0000FFF0)] ∧
    (nrf51_gpio_write s NRF51_GPIO_OUT v).1.out = 0 ∧
    nrf51_gpio_read (nrf51_gpio_write s NRF51_GPIO_OUT v).1 NRF51_GPIO_OUT = 0 := by
  refine ⟨?_, ?_, ?_⟩ <;>
    simp [nrf51_gpio_write, nrf51_gpio_write_out, nrf51_gpio_read,
          NRF51_GPIO_OUT, NRF51_GPIO_OUTSET, NRF51_GPIO_OUTCLR, h]

/-- C4 witness: the latch value 0x000020F0 (all 32 pins outputs) is
forwarded to the LED bus unchanged, and `OUT` reads back 0. -/
theorem C4_out_forwarding_witness :
    (0x20F0 &&& c4_state.dir) &&& 0x0000FFF0 ≠ 0 ∧
    (nrf51_gpio_write c4_state NRF51_GPIO_OUT 0x20F0).2 =
      [(0x40020000, 0x20F0)] ∧
    nrf51_gpio_read (nrf51_gpio_write c4_state NRF51_GPIO_OUT 0x20F0).1
      NRF51_GPIO_OUT = 0 := by
  have h := C4_out_forwarding c4_state 0x20F0 (by decide)
  exact ⟨by decide, h.1.trans (by decide), h.2.2⟩

/-- C5 counterexample: writing the S4 word (row 0, columns 0 and 1) to a
cleared frame yields `led_state = 5` — bits 0 ((0,0)) and 2 ((2,0)) — and
bit 14 ((4,2)), which the claim says is set, is clear (it is not even in
the row-0 clear mask). -/
theorem C5_counterexample :
    (microbit_led_matrix_write ledInit c5_val).led_state = 5 ∧
    Nat.testBit (microbit_led_matrix_write ledInit c5_val).led_state 14 = false ∧
    Nat.testBit (microbit_led_matrix_write ledInit c5_val).led_state 2 = true := by
  decide

/-- C5 (amended): starting from any frame, writing the S4 word
`(1 << 13) | (~((1 << 4) | (1 << 5)) & 0x1FF0)` leaves, within the row-0
clear mask 0x000f8815, exactly the bits for (x=0,y=0) (index 0) and
(x=2,y=0) (index 2) set. -/
theorem C5_led_decode (s : MICROBITLedMatrixState) :
    (microbit_led_matrix_write s c5_val).led_state &&& 0x000f8815 =
      (1 <<< 0) ||| (1 <<< 2) := by
  have hw : microbit_led_matrix_write s c5_val =
      { led_state := ((s.led_state &&& 0xFFF077EA) ||| 5) &&& 0x01FFFFFF,
        led_event := 3 } := rfl
  rw [hw]
  show (((s.led_state &&& 0xFFF077EA) ||| 5) &&& 0x01FFFFFF) &&& 0x000f8815 = 5
  have h1 : (0x01FFFFFF &&& 0x000f8815 : Nat) = 0x000f8815 := by decide
  have h2 : (0xFFF077EA &&& 0x000f8815 : Nat) = 0 := by decide
  have h3 : (5 &&& 0x000f8815 : Nat) = 5 := by decide
  rw [Nat.land_assoc, h1, land_lor_distrib_right, Nat.land_assoc, h2, h3]
  simp

/-- C6: write/read round trips on the timer registers: `CC[i]` and
`COMPARE[i]` return the written 32-bit value; `MODE` returns `v & 1`;
`BITMODE` returns `v & 3`; `PRESCALER` returns `v & 0xF`. -/
theorem C6_round_trip (s : NRF51TimerState) (v : Nat) (i : Fin 4)
    (hv : v < U32) :
    nrf51_timer_read (nrf51_timer_write s (0x540 + 4 * i.val) v)
      (0x540 + 4 * i.val) = v ∧
    nrf51_timer_read (nrf51_timer_write s (0x140 + 4 * i.val) v)
      (0x140 + 4 * i.val) = v ∧
    nrf51_timer_read (nrf51_timer_write s NRF51_TIMER_MODE v)
      NRF51_TIMER_MODE = v &&& 1 ∧
    nrf51_timer_read (nrf51_timer_write s NRF51_TIMER_BITMODE v)
      NRF51_TIMER_BITMODE = v &&& 3 ∧
    nrf51_timer_read (nrf51_timer_write s NRF51_TIMER_PRESCALER v)
      NRF51_TIMER_PRESCALER = v &&& 0xF := by
  have hm := Nat.mod_eq_of_lt hv
  fin_cases i <;>
    refine ⟨?_, ?_, ?_, ?_, ?_⟩ <;>
      simp [nrf51_timer_read, nrf51_timer_write, nrf51_timer_recalibrate,
            NRF51_TIMER_START, NRF51_TIMER_STOP, NRF51_TIMER_COUNT,
            NRF51_TIMER_CLEAR, NRF51_TIMER_SHUTDOWN, NRF51_TIMER_SHORTS,
            NRF51_TIMER_INTENSET, NRF51_TIMER_INTENCLR, NRF51_TIMER_MODE,
            NRF51_TIMER_BITMODE, NRF51_TIMER_PRESCALER, hm]

/-- C6 witness: round trip at a concrete state, value and channel. -/
theorem C6_round_trip_witness :
    (0x12345678 : Nat) < U32 ∧
    nrf51_timer_read (nrf51_timer_write timerInit (0x540 + 4 * (0 : Fin 4).val)
      0x12345678) (0x540 + 4 * (0 : Fin 4).val) = 0x12345678 := by
  exact ⟨by decide, (C6_round_trip timerInit 0x12345678 0 (by decide)).1⟩

/-- C7 counterexample: with `internal_counter = 7`, a `CAPTURE0` write
followed by a `CAPTURE0` read returns 0 (the never-written `capture[0]`),
not the snapshot 7 the claim promises. -/
theorem C7_counterexample :
    c7_state.internal_counter = 7 ∧
    nrf51_timer_read (nrf51_timer_write c7_state NRF51_TIMER_CAPTURE0 0)
      NRF51_TIMER_CAPTURE0 = 0 ∧
    (0 : Nat) ≠ 7 := by
  decide

/-- C7 (amended): a `CAPTURE[i]` write copies the `internal_counter`
snapshot into `cc[i]` — read back through `CC[i]` — while the `capture`
array is left unchanged, so a `CAPTURE[i]` read does not return the
snapshot. -/
theorem C7_capture_to_cc (s : NRF51TimerState) (i : Fin 4) (v : Nat) :
    (nrf51_timer_write s (0x040 + 4 * i.val) v).cc i = s.internal_counter ∧
    (nrf51_timer_write s (0x040 + 4 * i.val) v).capture = s.capture ∧
    nrf51_timer_read (nrf51_timer_write s (0x040 + 4 * i.val) v)
      (0x540 + 4 * i.val) = s.internal_counter := by
  fin_cases i <;> exact ⟨rfl, rfl, rfl⟩

/-- C8: an LED-matrix write whose row one-hot `(v >> 13) & 7` is not 1, 2
or 4 is silently ignored: the frame and the redraw-event mask are both
unchanged. -/
theorem C8_invalid_row_ignored (s : MICROBITLedMatrixState) (v : Nat)
    (h1 : (v >>> 13) &&& 7 ≠ 1) (h2 : (v >>> 13) &&& 7 ≠ 2)
    (h3 : (v >>> 13) &&& 7 ≠ 4) :
    microbit_led_matrix_write s v = s := by
  have hne : ¬((v >>> 13) &&& 7 = 1 ∨ (v >>> 13) &&& 7 = 2 ∨
      (v >>> 13) &&& 7 = 4) := by
    push_neg
    exact ⟨h1, h2, h3⟩
  simp [microbit_led_matrix_write, hne]

/-- C8 witness: the write value 0 has row one-hot 0 and leaves the reset
state untouched. -/
theorem C8_invalid_row_ignored_witness :
    (0 >>> 13) &&& 7 ≠ 1 ∧ microbit_led_matrix_write ledInit 0 = ledInit := by
  exact ⟨by decide,
    C8_invalid_row_ignored ledInit 0 (by decide) (by decide) (by decide)⟩

/-- C9: a `COUNT` write never changes `internal_counter`; in timer mode
(bit 0 of `mode` clear) it changes nothing at all, and in counter mode it
changes only `count` and the tick-source reload limit. -/
theorem C9_count_write_frame (s : NRF51TimerState) (v : Nat) :
    (nrf51_timer_write s NRF51_TIMER_COUNT v).internal_counter =
      s.internal_counter ∧
    (s.mode &&& 1 = 0 → nrf51_timer_write s NRF51_TIMER_COUNT v = s) ∧
    (s.mode &&& 1 ≠ 0 → nrf51_timer_write s NRF51_TIMER_COUNT v =
      { s with count := v % U32,
               timer := { s.timer with limit := v % U32 } }) := by
  refine ⟨?_, ?_, ?_⟩
  · rcases Nat.mod_two_eq_zero_or_one s.mode with hm | hm <;>
      simp [nrf51_timer_write, nrf51_timer_recalibrate, Nat.and_one_is_mod,
            NRF51_TIMER_START, NRF51_TIMER_STOP, NRF51_TIMER_COUNT, hm]
  · intro hm
    rw [Nat.and_one_is_mod] at hm
    simp [nrf51_timer_write, Nat.and_one_is_mod,
          NRF51_TIMER_START, NRF51_TIMER_STOP, NRF51_TIMER_COUNT, hm]
  · intro hm
    rw [Nat.and_one_is_mod] at hm
    have hm1 : s.mode % 2 = 1 := by omega
    simp [nrf51_timer_write, nrf51_timer_recalibrate, Nat.and_one_is_mod,
          NRF51_TIMER_START, NRF51_TIMER_STOP, NRF51_TIMER_COUNT, hm1]

/-- C9 witness: in the realize state (timer mode) a `COUNT` write is a
no-op. -/
theorem C9_count_write_frame_witness :
    timerInit.mode &&& 1 = 0 ∧
    nrf51_timer_write timerInit NRF51_TIMER_COUNT 5 = timerInit := by
  exact ⟨by decide, (C9_count_write_frame timerInit 5).2.1 (by decide)⟩

/-- C10: every `OUT`/`OUTSET`/`OUTCLR` write ends with the output latch
cleared to 0, any GPIO write preserves a zero latch, reads of the three
output offsets return the (zero) latch, and from a zero latch an `OUTSET`
write is identical to an `OUT` write of the same value. -/
theorem C10_out_latch_zero (s : NRF51GPIOState) (offset v : Nat)
    (h : s.out = 0) :
    (nrf51_gpio_write s NRF51_GPIO_OUT v).1.out = 0 ∧
    (nrf51_gpio_write s NRF51_GPIO_OUTSET v).1.out = 0 ∧
    (nrf51_gpio_write s NRF51_GPIO_OUTCLR v).1.out = 0 ∧
    (nrf51_gpio_write s offset v).1.out = 0 ∧
    nrf51_gpio_read s NRF51_GPIO_OUT = 0 ∧
    nrf51_gpio_read s NRF51_GPIO_OUTSET = 0 ∧
    nrf51_gpio_read s NRF51_GPIO_OUTCLR = 0 ∧
    nrf51_gpio_write s NRF51_GPIO_OUTSET v = nrf51_gpio_write s NRF51_GPIO_OUT v := by
  refine ⟨?_, ?_, ?_, ?_, ?_, ?_, ?_, ?_⟩
  · simp [nrf51_gpio_write, nrf51_gpio_write_out,
          NRF51_GPIO_OUT, NRF51_GPIO_OUTSET, NRF51_GPIO_OUTCLR]
  · simp [nrf51_gpio_write, nrf51_gpio_write_out,
          NRF51_GPIO_OUT, NRF51_GPIO_OUTSET, NRF51_GPIO_OUTCLR]
  · simp [nrf51_gpio_write, nrf51_gpio_write_out,
          NRF51_GPIO_OUT, NRF51_GPIO_OUTSET, NRF51_GPIO_OUTCLR]
  · unfold nrf51_gpio_write
    split_ifs <;>
      simp [nrf51_gpio_write_out, nrf51_gpio_pin_dir_update, h]
  · simp [nrf51_gpio_read, NRF51_GPIO_OUT, NRF51_GPIO_OUTSET,
          NRF51_GPIO_OUTCLR, h]
  · simp [nrf51_gpio_read, NRF51_GPIO_OUT, NRF51_GPIO_OUTSET,
          NRF51_GPIO_OUTCLR, h]
  · simp [nrf51_gpio_read, NRF51_GPIO_OUT, NRF51_GPIO_OUTSET,
          NRF51_GPIO_OUTCLR, h]
  · simp [nrf51_gpio_write, NRF51_GPIO_OUT, NRF51_GPIO_OUTSET,
          NRF51_GPIO_OUTCLR, h]

/-- C10 witness: from the reset state (zero latch) an `OUTSET` write
produces the same result as an `OUT` write. -/
theorem C10_out_latch_zero_witness :
    gpioInit.out = 0 ∧
    nrf51_gpio_write gpioInit NRF51_GPIO_OUTSET 3 =
      nrf51_gpio_write gpioInit NRF51_GPIO_OUT 3 := by
  exact ⟨rfl, (C10_out_latch_zero gpioInit 0 3 rfl).2.2.2.2.2.2.2⟩

end Microbit
